import Mathlib

/-!
Verification development for the safety-detection app's Trigger Detection &
Alert Dispatch Engine (shake detector, voice capture/transcription loop,
alert dispatch paths, and lifecycle suspend/resume handling).

Machine integers and JS `number` timestamps are modelled as `ℕ` (milliseconds
since epoch); acceleration components as `ℚ`.  The comparison
`Math.sqrt(x*x+y*y+z*z) > threshold` is embedded as the equivalent
`x^2+y^2+z^2 > threshold^2` (both sides are nonnegative and squaring is
strictly monotone on nonnegatives), which keeps every definition executable
and decidable.
-/

namespace SafetyDetection

/-! ## Shake detection service (src/services/shakeDetectionService.ts) -/

/-- Sensitivity levels accepted by `start` and `setSensitivity`
(`'low' | 'medium' | 'high'`). -/
inductive Sensitivity
  | low
  | medium
  | high
  deriving DecidableEq, Repr

/-- Threshold chosen by the `switch (sensitivity)` blocks in `start`
(lines 14-24) and `setSensitivity` (lines 74-84): low → 3.5, medium → 2.5,
high → 1.8. -/
def sensThreshold : Sensitivity → ℚ
  | .low => 7/2
  | .medium => 5/2
  | .high => 9/5

/-- One accelerometer sample: arrival time (`Date.now()`, ms) and the three
axis components delivered to the `Accelerometer.addListener` callback. -/
structure MotionSample where
  t : ℕ
  x : ℚ
  y : ℚ
  z : ℚ
  deriving DecidableEq, Repr, Inhabited

/-- Squared magnitude `x*x + y*y + z*z` of a sample.  The source compares
`Math.sqrt` of this against the threshold; we compare against the squared
threshold instead (equivalent, see the file header). -/
def magSq (s : MotionSample) : ℚ := s.x ^ 2 + s.y ^ 2 + s.z ^ 2

/-- Mutable fields of the `ShakeDetectionService` singleton:
`lastShakeTime` (initially 0), `shakeThreshold` (initially 2.5),
`shakeTimeout` (1000 ms debounce), and whether an accelerometer
subscription is live (`subscription !== null`). -/
structure ShakeService where
  lastShakeTime : ℕ
  shakeThreshold : ℚ
  shakeTimeout : ℕ
  active : Bool
  deriving DecidableEq, Repr

/-- Field initializers at lines 5-8 of shakeDetectionService.ts. -/
def ShakeService.init : ShakeService :=
  { lastShakeTime := 0, shakeThreshold := 5/2, shakeTimeout := 1000, active := false }

/-- `start(onShake, sensitivity)`: sets the threshold from the sensitivity
and subscribes to the accelerometer. -/
def ShakeService.start (svc : ShakeService) (sens : Sensitivity) : ShakeService :=
  { svc with shakeThreshold := sensThreshold sens, active := true }

/-- `stop()`: removes the subscription and clears the callback.  Idempotent. -/
def ShakeService.stop (svc : ShakeService) : ShakeService :=
  { svc with active := false }

/-- `isActive()`. -/
def ShakeService.isActive (svc : ShakeService) : Bool := svc.active

/-- `setSensitivity(sensitivity)`: updates only the threshold. -/
def ShakeService.setSensitivity (svc : ShakeService) (sens : Sensitivity) : ShakeService :=
  { svc with shakeThreshold := sensThreshold sens }

/-- The accelerometer-listener body (lines 32-52): fire a shake iff the
magnitude exceeds the threshold and `now - lastShakeTime > shakeTimeout`,
updating `lastShakeTime` on fire.  JS computes `now - lastShakeTime` in ℤ;
ℕ truncated subtraction agrees with it on the comparison `> shakeTimeout`
(a negative difference and a truncated-to-0 difference both fail it). -/
def ShakeService.onSample (svc : ShakeService) (s : MotionSample) : ShakeService × Bool :=
  if magSq s > svc.shakeThreshold ^ 2 then
    if s.t - svc.lastShakeTime > svc.shakeTimeout then
      ({ svc with lastShakeTime := s.t }, true)
    else (svc, false)
  else (svc, false)

/-- Run the listener over a stream of samples, collecting the fired flags. -/
def runShake (svc : ShakeService) : List MotionSample → List Bool
  | [] => []
  | s :: rest =>
      let r := svc.onSample s
      r.2 :: runShake r.1 rest

/-- Time of the last fired shake in a (sample, fired) history, with `dflt`
when none fired (the service starts with `lastShakeTime = 0`). -/
def lastFiredTime (dflt : ℕ) (hist : List (MotionSample × Bool)) : ℕ :=
  hist.foldl (fun acc p => if p.2 then p.1.t else acc) dflt

/-! ## Transcription (src/services/voiceRecognitionService.ts, transcribeAudio) -/

/-- The record returned by `transcribeAudio`. -/
structure TranscriptionResult where
  success : Bool
  transcript : String
  containsKeyword : Bool
  hasVoice : Bool
  deriving DecidableEq, Repr

/-- The sentinel returned from the `catch` block of `transcribeAudio`
(lines 211-216). -/
def transcribeFailure : TranscriptionResult :=
  { success := false, transcript := "", containsKeyword := false, hasVoice := false }

/-- Error classes the axios call can raise (timeout `ECONNABORTED`, network
error, non-2xx response, anything else). -/
inductive TranscribeErr
  | timeout
  | networkError
  | httpError (status : ℕ)
  | other (msg : String)
  deriving DecidableEq, Repr

/-- Raw JSON fields of a 2xx response body (`response.data`); the optional
fields model JSON fields that may be absent (the source defends against
absence with `|| ''`, `|| false`, `!== false`). -/
structure TranscribeResponse where
  success : Bool
  transcript : Option String
  containsKeyword : Option Bool
  hasVoice : Option Bool
  deriving DecidableEq, Repr

/-- `transcribeAudio` (lines 151-218), with its two effect inputs made
explicit: the stored auth token (`AsyncStorage.getItem('token')`) and the
outcome of the axios POST.  A missing token throws `'No auth token'`, which
the function's own `catch` swallows; every axios failure is also caught; so
every path returns a `TranscriptionResult` and none re-raises. -/
def transcribeAudio (token : Option String) (call : Except TranscribeErr TranscribeResponse) :
    TranscriptionResult :=
  match token with
  | none => transcribeFailure
  | some _ =>
      match call with
      | .error _ => transcribeFailure
      | .ok d =>
          { success := d.success
            transcript := d.transcript.getD ""
            containsKeyword := d.containsKeyword.getD false
            hasVoice := d.hasVoice ≠ some false }

/-! ## The voice listening loop (src/context/VoiceContext.tsx, startListening) -/

/-- One iteration's outcome of the blocking operations inside the
`while (listeningLoopRef.current)` loop (lines 92-146):
`recordFail` = `recordChunk` returned null; `stopRequested` = the chunk was
recorded but `listeningLoopRef.current` had been cleared (line 103);
`transcribed r` = the chunk was recorded and transcribed to `r`;
`loopError` = an exception escaped the iteration body and was caught at
line 140. -/
inductive LoopEvent
  | recordFail
  | stopRequested
  | transcribed (r : TranscriptionResult)
  | loopError
  deriving DecidableEq, Repr

/-- Observable outcome of one run of the listening loop. -/
structure VoiceRun where
  /-- number of `triggerEmergencyAlert` invocations -/
  dispatched : ℕ
  /-- loop exited through the keyword-match branch (lines 116-131) -/
  stoppedByKeyword : Bool
  /-- value of `listeningLoopRef.current` when the loop exits
  (true = exited because the event stream ran out while still listening) -/
  listeningAtEnd : Bool
  /-- iteration inputs the loop never consumed (captures not performed) -/
  remaining : List LoopEvent
  /-- the `setTimeout` delays performed, in order (ms) -/
  delays : List ℕ
  deriving DecidableEq, Repr

/-- The loop body, iterated over a stream of per-iteration outcomes.
Mirrors the control flow of lines 92-146: record failure waits 1000 ms and
retries; a cleared `listeningLoopRef` breaks; a successful transcription
with voice, a non-empty transcript and the keyword dispatches the alert,
stops listening and breaks; every other transcription outcome (including
`success: false`) falls through to the 300 ms inter-chunk delay; a thrown
exception is caught and waits 2000 ms. -/
def voiceLoop : List LoopEvent → VoiceRun
  | [] =>
      { dispatched := 0, stoppedByKeyword := false, listeningAtEnd := true
        remaining := [], delays := [] }
  | e :: rest =>
      match e with
      | .recordFail =>
          let r := voiceLoop rest
          { r with delays := 1000 :: r.delays }
      | .stopRequested =>
          { dispatched := 0, stoppedByKeyword := false, listeningAtEnd := false
            remaining := rest, delays := [] }
      | .loopError =>
          let r := voiceLoop rest
          { r with delays := 2000 :: r.delays }
      | .transcribed tr =>
          if tr.success then
            if tr.hasVoice ∧ tr.transcript ≠ "" then
              if tr.containsKeyword then
                { dispatched := 1, stoppedByKeyword := true, listeningAtEnd := false
                  remaining := rest, delays := [] }
              else
                let r := voiceLoop rest
                { r with delays := 300 :: r.delays }
            else
              let r := voiceLoop rest
              { r with delays := 300 :: r.delays }
          else
            let r := voiceLoop rest
            { r with delays := 300 :: r.delays }

/-! ## Alert dispatch (ShakeContext.handleShakeDetected,
VoiceContext.triggerEmergencyAlert, HomeScreen SOS, AlertsScreen rendering) -/

/-- A location as held by LocationContext (`currentLocation`). -/
structure Location where
  latitude : ℚ
  longitude : ℚ
  address : Option String
  deriving DecidableEq, Repr

/-- A guardian record read from `demo_guardians`. -/
structure Guardian where
  name : String
  phone : String
  deriving DecidableEq, Repr

/-- The alert object persisted to `demo_alerts` (fields of the object
literals at ShakeContext lines 96-105 and VoiceContext lines 219-228;
`id` is `alert-${Date.now()}` and `createdAt` the same clock reading). -/
structure Alert where
  id : String
  triggerType : String
  status : String
  latitude : ℚ
  longitude : ℚ
  address : Option String
  message : String
  createdAt : ℕ
  deriving DecidableEq, Repr

/-- The alert persisted by `handleShakeDetected` (ShakeContext lines
96-105): note `triggerType: 'manual'` with a message naming shake
detection. -/
def shakeAlert (loc : Location) (now : ℕ) : Alert :=
  { id := "alert-" ++ toString now
    triggerType := "manual"
    status := "ACTIVE"
    latitude := loc.latitude
    longitude := loc.longitude
    address := loc.address
    message := "Emergency alert triggered by shake detection"
    createdAt := now }

/-- The alert persisted by `triggerEmergencyAlert` (VoiceContext lines
219-228): `triggerType: 'voice'`. -/
def voiceAlert (loc : Location) (now : ℕ) : Alert :=
  { id := "alert-" ++ toString now
    triggerType := "voice"
    status := "ACTIVE"
    latitude := loc.latitude
    longitude := loc.longitude
    address := loc.address
    message := "Emergency alert triggered by voice command \x22Astra\x22"
    createdAt := now }

/-- The alert persisted by the HomeScreen manual SOS button
(HomeScreen.tsx around line 50): also `triggerType: 'manual'`. -/
def manualSosTriggerType : String := "manual"

/-- `getTriggerTypeText` from AlertsScreen.tsx lines 119-130: how a stored
`triggerType` is labelled in the alert list. -/
def getTriggerTypeText (triggerType : String) : String :=
  if triggerType = "voice" then "Voice Activated"
  else if triggerType = "manual" then "Manual SOS"
  else if triggerType = "secret_code" then "Secret Code"
  else triggerType

/-- How a dispatch attempt resolves, as observable from the source. -/
inductive DispatchOutcome
  /-- `!currentLocation`: toast an error and return before persisting -/
  | locationUnavailable
  /-- alert persisted; demo SMS simulated for the given number of guardians -/
  | dispatched (guardianCount : ℕ)
  deriving DecidableEq, Repr

/-- `handleShakeDetected` (ShakeContext lines 69-151), with its effect
inputs explicit: the current location, the stored guardians, the stored
alert list, and the clock.  There is no in-flight guard anywhere in the
function: its only early return is the missing-location check (lines
82-89); otherwise it unshifts exactly one new alert onto `demo_alerts`. -/
def handleShakeDetected (loc : Option Location) (guardians : List Guardian)
    (alerts : List Alert) (now : ℕ) : List Alert × DispatchOutcome :=
  match loc with
  | none => (alerts, .locationUnavailable)
  | some l => (shakeAlert l now :: alerts, .dispatched guardians.length)

/-- `triggerEmergencyAlert` (VoiceContext lines 203-273): same shape as the
shake path (missing-location early return at lines 205-212, one alert
unshifted otherwise), persisting `voiceAlert`. -/
def triggerEmergencyAlert (loc : Option Location) (guardians : List Guardian)
    (alerts : List Alert) (now : ℕ) : List Alert × DispatchOutcome :=
  match loc with
  | none => (alerts, .locationUnavailable)
  | some l => (voiceAlert l now :: alerts, .dispatched guardians.length)

/-! ### Concurrent dispatch interleavings

`handleShakeDetected` and `triggerEmergencyAlert` are `async` and suspend
at several `await`s (AsyncStorage reads/writes and a 1000 ms simulated-SMS
`setTimeout`) between persisting the alert and completing.  Other events —
in particular further detector callbacks — run during those suspensions.
Neither context module reads or writes any "dispatch in flight" flag, so a
trigger transition below never consults `inFlight`; `inFlight` merely
counts dispatch executions that have started and not yet completed. -/

/-- State of the dispatch layer across an interleaving. -/
structure CoordState where
  inFlight : ℕ
  persisted : List Alert
  guardians : List Guardian
  deriving DecidableEq, Repr

/-- Events of an interleaving: a shake or voice trigger callback firing
(with the location and clock it observes), or one in-flight dispatch
reaching the end of its function body. -/
inductive CoordEvent
  | shakeTrigger (loc : Option Location) (now : ℕ)
  | voiceTrigger (loc : Option Location) (now : ℕ)
  | dispatchComplete
  deriving DecidableEq, Repr

/-- Initial dispatch-layer state for a given guardian list. -/
def coordInit (guardians : List Guardian) : CoordState :=
  { inFlight := 0, persisted := [], guardians := guardians }

/-- One event of the interleaving.  A trigger with a location starts a new
dispatch (persisting its alert) regardless of `inFlight`, because the
source has no guard; a trigger without a location returns early having
started nothing. -/
def coordStep (st : CoordState) : CoordEvent → CoordState
  | .shakeTrigger loc now =>
      let r := handleShakeDetected loc st.guardians st.persisted now
      match r.2 with
      | .locationUnavailable => { st with persisted := r.1 }
      | .dispatched _ => { st with persisted := r.1, inFlight := st.inFlight + 1 }
  | .voiceTrigger loc now =>
      let r := triggerEmergencyAlert loc st.guardians st.persisted now
      match r.2 with
      | .locationUnavailable => { st with persisted := r.1 }
      | .dispatched _ => { st with persisted := r.1, inFlight := st.inFlight + 1 }
  | .dispatchComplete => { st with inFlight := st.inFlight - 1 }

/-- Run an interleaving. -/
def coordRun (st : CoordState) : List CoordEvent → CoordState
  | [] => st
  | e :: rest => coordRun (coordStep st e) rest

/-- Number of trigger events in an interleaving that arrive with a location
available (the triggers the source accepts and dispatches). -/
def acceptedTriggers : List CoordEvent → ℕ
  | [] => 0
  | .shakeTrigger (some _) _ :: rest => acceptedTriggers rest + 1
  | .voiceTrigger (some _) _ :: rest => acceptedTriggers rest + 1
  | _ :: rest => acceptedTriggers rest

/-! ## App lifecycle handling (ShakeContext / VoiceContext
handleAppStateChange) -/

/-- React Native `AppStateStatus` values the handlers branch on. -/
inductive AppLife
  | active
  | background
  | inactive
  deriving DecidableEq, Repr

/-- ShakeContext provider state relevant to lifecycle: the `isEnabled` and
`sensitivity` React state plus the shake service singleton. -/
structure ShakeCtx where
  isEnabled : Bool
  sensitivity : Sensitivity
  svc : ShakeService
  deriving DecidableEq, Repr

/-- `startShakeDetection` (ShakeContext lines 55-63): a no-op when the
service is already active, else `shakeDetectionService.start`. -/
def startShakeDetection (st : ShakeCtx) : ShakeCtx :=
  if st.svc.isActive then st
  else { st with svc := st.svc.start st.sensitivity }

/-- `stopShakeDetection` (lines 65-67). -/
def stopShakeDetection (st : ShakeCtx) : ShakeCtx :=
  { st with svc := st.svc.stop }

/-- ShakeContext's `handleAppStateChange` (lines 39-45): start on
`'active'` when enabled, stop on `'background' | 'inactive'`. -/
def shakeHandleAppStateChange (st : ShakeCtx) : AppLife → ShakeCtx
  | .active => if st.isEnabled then startShakeDetection st else st
  | .background => stopShakeDetection st
  | .inactive => stopShakeDetection st

/-- VoiceContext provider state relevant to lifecycle: `isEnabled` React
state, the `listeningLoopRef` ref, and the `isListening` React state. -/
structure VoiceCtx where
  isEnabled : Bool
  loopRef : Bool
  isListening : Bool
  deriving DecidableEq, Repr

/-- Entry of `startListening` (VoiceContext lines 62-81) up to the loop:
returns immediately when `listeningLoopRef.current` is already true
(lines 64-67), else sets the ref and `isListening`.  (Initialization is
assumed granted; a denied permission also returns without starting.) -/
def startListeningEntry (st : VoiceCtx) : VoiceCtx :=
  if st.loopRef then st
  else { st with loopRef := true, isListening := true }

/-- `stopListening` (lines 163-179): clears `listeningLoopRef.current`
first thing, then `isListening`. -/
def stopListeningEntry (st : VoiceCtx) : VoiceCtx :=
  { st with loopRef := false, isListening := false }

/-- VoiceContext's `handleAppStateChange` (lines 44-52): resume via
`startListening` on `'active'` only when `isEnabled && listeningLoopRef
.current`; stop on `'background' | 'inactive'`.  (The effect registering
this handler has an empty dependency array, so its closure additionally
freezes `isEnabled` at its initial `false`; the model charitably uses the
live value, which only widens the set of states in which a resume could
happen.) -/
def voiceHandleAppStateChange (st : VoiceCtx) : AppLife → VoiceCtx
  | .active => if st.isEnabled ∧ st.loopRef then startListeningEntry st else st
  | .background => stopListeningEntry st
  | .inactive => stopListeningEntry st

/-! ## recordChunk single-flight machine
(src/services/voiceRecognitionService.ts lines 52-133, cleanup lines
250-256)

`recordChunk` is async: after taking `recordingLock`, preparing and
starting an `Audio.Recording`, it suspends on `setTimeout(durationMs)` and
only then stops the recording, returns its URI and releases the lock in
`finally`.  We model two potential invocations as program counters and the
interleaving as an event list.  Recording objects are numbered by a
counter so the model can say which recording an invocation stops. -/

/-- Program counter of one `recordChunk` invocation. -/
inductive RcPc
  /-- invocation not yet made -/
  | notCalled
  /-- lock taken, recording started, suspended on the duration timer -/
  | awaitingTimer
  /-- invocation returned with this URI (`none` = returned null) -/
  | returned (uri : Option ℕ)
  deriving DecidableEq, Repr

/-- Shared service fields plus the two invocations' program counters. -/
structure RecState where
  recordingLock : Bool
  recording : Option ℕ
  isRecording : Bool
  pc1 : RcPc
  pc2 : RcPc
  nextRec : ℕ
  deriving DecidableEq, Repr

/-- Fresh service state. -/
def recInit : RecState :=
  { recordingLock := false, recording := none, isRecording := false
    pc1 := .notCalled, pc2 := .notCalled, nextRec := 0 }

/-- Interleaving events: invocation i enters `recordChunk` (`call i`);
invocation i's duration timer fires and it runs to its return
(`timerFires i`); `cleanup()` runs (`cleanupRuns`). -/
inductive RecEvent
  | call1
  | call2
  | timerFires1
  | timerFires2
  | cleanupRuns
  deriving DecidableEq, Repr

/-- Entry segment of `recordChunk` (lines 52-98): if `recordingLock` is
set, log and return null (lines 54-57); else take the lock, force-clean
any existing recording (lines 62-63, 136-148), create and start a fresh
recording (lines 66-95) and suspend on the timer (line 98). -/
def recCallSeg (st : RecState) (pc : RcPc) : RecState × RcPc :=
  match pc with
  | .notCalled =>
      if st.recordingLock then (st, .returned none)
      else
        ({ st with recordingLock := true, recording := some st.nextRec
                   isRecording := true, nextRec := st.nextRec + 1 },
         .awaitingTimer)
  | p => (st, p)

/-- Continuation after the timer (lines 100-114 and the `finally` at line
130-132): if `this.recording` is still set, stop and unload it — whichever
recording that now is — and return its URI; else return null; either way
release the lock. -/
def recTimerSeg (st : RecState) (pc : RcPc) : RecState × RcPc :=
  match pc with
  | .awaitingTimer =>
      match st.recording with
      | some r =>
          ({ st with recording := none, isRecording := false, recordingLock := false },
           .returned (some r))
      | none =>
          ({ st with isRecording := false, recordingLock := false }, .returned none)
  | p => (st, p)

/-- `cleanup()` (lines 250-256): unconditionally clears `recordingLock`,
then stops and discards any current recording. -/
def recCleanupSeg (st : RecState) : RecState :=
  { st with recordingLock := false, recording := none, isRecording := false }

/-- Apply one interleaving event. -/
def recStep (st : RecState) : RecEvent → RecState
  | .call1 => let r := recCallSeg st st.pc1; { r.1 with pc1 := r.2 }
  | .call2 => let r := recCallSeg st st.pc2; { r.1 with pc2 := r.2 }
  | .timerFires1 => let r := recTimerSeg st st.pc1; { r.1 with pc1 := r.2 }
  | .timerFires2 => let r := recTimerSeg st st.pc2; { r.1 with pc2 := r.2 }
  | .cleanupRuns => recCleanupSeg st

/-- Run an interleaving of the two invocations and cleanup. -/
def recRun (st : RecState) : List RecEvent → RecState
  | [] => st
  | e :: rest => recRun (recStep st e) rest

/-- Number of capture operations currently outstanding: invocations that
have taken the lock and started recording but not yet returned. -/
def outstandingCaptures (st : RecState) : ℕ :=
  (if st.pc1 = .awaitingTimer then 1 else 0) + (if st.pc2 = .awaitingTimer then 1 else 0)

/-! ## Specification-side predicates (translated from the spec's words,
for comparison against the source embeddings above) -/

/-- C2's firing rule as the spec words it: a shake fires on a sample iff
its magnitude exceeds the threshold and "at least the 1000 ms debounce
window has elapsed since the last fired Shake" — i.e. elapsed ≥ 1000 ms. -/
def claimFiresAtLeast (sens : Sensitivity) (samples : List MotionSample) : Prop :=
  ∀ i < samples.length,
    ((runShake (ShakeService.init.start sens) samples).getD i false = true ↔
      magSq (samples.getD i default) > (sensThreshold sens) ^ 2 ∧
      1000 ≤ (samples.getD i default).t -
        lastFiredTime 0
          ((samples.zip (runShake (ShakeService.init.start sens) samples)).take i))

/-- C1's guard invariant as the spec words it: in every interleaving of
trigger emissions and dispatch completions, at most one alert dispatch is
in flight at any time. -/
def claimSingleFlightDispatch : Prop :=
  ∀ (g : List Guardian) (evs : List CoordEvent), (coordRun (coordInit g) evs).inFlight ≤ 1

/-- C8's capture invariant as the spec words it: in every interleaving of
`recordChunk` invocations, timer completions and `cleanup()`/stop calls,
at most one audio capture is outstanding at any time. -/
def claimSingleFlightCapture : Prop :=
  ∀ evs : List RecEvent, outstandingCaptures (recRun recInit evs) ≤ 1

/-! ## Helper lemmas about the shake listener -/

theorem runShake_cons (svc : ShakeService) (s : MotionSample) (rest : List MotionSample) :
    runShake svc (s :: rest) = (svc.onSample s).2 :: runShake (svc.onSample s).1 rest := rfl

theorem onSample_threshold (svc : ShakeService) (s : MotionSample) :
    (svc.onSample s).1.shakeThreshold = svc.shakeThreshold := by
  unfold ShakeService.onSample
  split_ifs <;> rfl

theorem onSample_timeout (svc : ShakeService) (s : MotionSample) :
    (svc.onSample s).1.shakeTimeout = svc.shakeTimeout := by
  unfold ShakeService.onSample
  split_ifs <;> rfl

theorem onSample_last (svc : ShakeService) (s : MotionSample) :
    (svc.onSample s).1.lastShakeTime =
      if (svc.onSample s).2 then s.t else svc.lastShakeTime := by
  unfold ShakeService.onSample
  split_ifs <;> simp_all

theorem onSample_fired_iff (svc : ShakeService) (s : MotionSample) :
    (svc.onSample s).2 = true ↔
      magSq s > svc.shakeThreshold ^ 2 ∧ s.t - svc.lastShakeTime > svc.shakeTimeout := by
  unfold ShakeService.onSample
  split_ifs with h1 h2 <;> simp_all

theorem lastFiredTime_cons (dflt : ℕ) (s : MotionSample) (b : Bool)
    (hist : List (MotionSample × Bool)) :
    lastFiredTime dflt ((s, b) :: hist) = lastFiredTime (if b then s.t else dflt) hist := rfl

/-- The incremental listener agrees with the history-based firing rule:
a sample's flag is set iff its magnitude beats the threshold and strictly
more than `shakeTimeout` ms have passed since the time of the last fired
shake in the preceding history (with the service's entry `lastShakeTime`
when none has fired yet). -/
theorem runShake_spec (samples : List MotionSample) :
    ∀ (svc : ShakeService), ∀ i, i < samples.length →
      ((runShake svc samples).getD i false = true ↔
        magSq (samples.getD i default) > svc.shakeThreshold ^ 2 ∧
        (samples.getD i default).t -
          lastFiredTime svc.lastShakeTime ((samples.zip (runShake svc samples)).take i)
          > svc.shakeTimeout) := by
  induction samples with
  | nil => intro svc i hi; simp at hi
  | cons s rest ih =>
      intro svc i hi
      rw [runShake_cons]
      cases i with
      | zero =>
          simpa [lastFiredTime] using onSample_fired_iff svc s
      | succ j =>
          have hj : j < rest.length := by simpa using hi
          have h := ih (svc.onSample s).1 j hj
          rw [onSample_threshold, onSample_timeout, onSample_last] at h
          simpa [List.getD_cons_succ, List.zip_cons_cons, List.take_succ_cons,
                 lastFiredTime_cons] using h

/-! ## Claim theorems -/

/-- C7: the shake detector maps sensitivity low to threshold 3.5, medium
to 2.5 and high to 1.8, identically in `start` and `setSensitivity`; a
sample of magnitude 3.0 (with the debounce window long elapsed) fires a
shake under medium and high sensitivity but not under low. -/
theorem c7_sensitivity_thresholds :
    (ShakeService.init.start .low).shakeThreshold = 7/2 ∧
    (ShakeService.init.start .medium).shakeThreshold = 5/2 ∧
    (ShakeService.init.start .high).shakeThreshold = 9/5 ∧
    (ShakeService.init.setSensitivity .low).shakeThreshold = 7/2 ∧
    (ShakeService.init.setSensitivity .medium).shakeThreshold = 5/2 ∧
    (ShakeService.init.setSensitivity .high).shakeThreshold = 9/5 ∧
    ((ShakeService.init.start .medium).onSample ⟨1700000000000, 0, 0, 3⟩).2 = true ∧
    ((ShakeService.init.start .high).onSample ⟨1700000000000, 0, 0, 3⟩).2 = true ∧
    ((ShakeService.init.start .low).onSample ⟨1700000000000, 0, 0, 3⟩).2 = false := by
  norm_num [ShakeService.init, ShakeService.start, ShakeService.setSensitivity,
            ShakeService.onSample, sensThreshold, magSq]

/-- C2 as stated is false: the code debounces with a strict comparison
(`now - lastShakeTime > 1000`), so with medium sensitivity and two
above-threshold samples exactly 1000 ms apart the second sample does not
fire even though "at least the 1000 ms debounce window has elapsed since
the last fired Shake". -/
theorem c2_counterexample :
    ¬ claimFiresAtLeast .medium
        [⟨1700000000000, 0, 0, 3⟩, ⟨1700000001000, 0, 0, 3⟩] := by
  intro h
  have hrun : runShake (ShakeService.init.start .medium)
      [⟨1700000000000, 0, 0, 3⟩, ⟨1700000001000, 0, 0, 3⟩] = [true, false] := by
    norm_num [runShake, ShakeService.onSample, ShakeService.init, ShakeService.start,
              sensThreshold, magSq]
  have h1 := h 1 (by norm_num)
  rw [hrun] at h1
  norm_num [lastFiredTime, magSq, sensThreshold] at h1

/-- C2 (amended): a Shake fires on a sample iff its magnitude exceeds the
sensitivity's threshold and strictly more than 1000 ms have elapsed since
the last fired Shake (the service's `lastShakeTime`, initially 0); and for
shakes of magnitude 3 under medium sensitivity at offsets 0 ms, 500 ms and
1100 ms from any epoch later than the 1000 ms debounce, only the first and
the third fire. -/
theorem c2_shake_debounce_amended :
    (∀ (sens : Sensitivity) (samples : List MotionSample) (i : ℕ), i < samples.length →
      ((runShake (ShakeService.init.start sens) samples).getD i false = true ↔
        magSq (samples.getD i default) > (sensThreshold sens) ^ 2 ∧
        (samples.getD i default).t -
          lastFiredTime 0
            ((samples.zip (runShake (ShakeService.init.start sens) samples)).take i)
          > 1000)) ∧
    (∀ t0 : ℕ, 1000 < t0 →
      runShake (ShakeService.init.start .medium)
        [⟨t0, 0, 0, 3⟩, ⟨t0 + 500, 0, 0, 3⟩, ⟨t0 + 1100, 0, 0, 3⟩] =
        [true, false, true]) := by
  constructor
  · intro sens samples i hi
    have h := runShake_spec samples (ShakeService.init.start sens) i hi
    simpa [ShakeService.init, ShakeService.start] using h
  · intro t0 ht0
    have hm : ((5:ℚ)/2) ^ 2 < 3 ^ 2 := by norm_num
    have h2 : ¬ ((1000:ℕ) < t0 + 500 - t0) := by omega
    have h3 : (1000:ℕ) < t0 + 1100 - t0 := by omega
    norm_num [runShake, ShakeService.onSample, ShakeService.init, ShakeService.start,
              sensThreshold, magSq, hm, ht0, h2, h3]

/-- Witness for `c2_shake_debounce_amended` at sample list
`[(t=2000, z=3)]`, index 0, and epoch 2000. -/
theorem c2_shake_debounce_amended_witness :
    (((runShake (ShakeService.init.start .medium) [⟨2000, 0, 0, 3⟩]).getD 0 false = true ↔
        magSq (([⟨2000, 0, 0, 3⟩] : List MotionSample).getD 0 default) >
          (sensThreshold .medium) ^ 2 ∧
        (([⟨2000, 0, 0, 3⟩] : List MotionSample).getD 0 default).t -
          lastFiredTime 0
            (([⟨2000, 0, 0, 3⟩].zip
              (runShake (ShakeService.init.start .medium) [⟨2000, 0, 0, 3⟩])).take 0)
          > 1000)) ∧
    runShake (ShakeService.init.start .medium)
      [⟨2000, 0, 0, 3⟩, ⟨2000 + 500, 0, 0, 3⟩, ⟨2000 + 1100, 0, 0, 3⟩] =
      [true, false, true] :=
  ⟨c2_shake_debounce_amended.1 .medium [⟨2000, 0, 0, 3⟩] 0 (by decide),
   c2_shake_debounce_amended.2 2000 (by decide)⟩

/-- C3 as stated is false: a transcription result with `success`,
`hasVoice` and `containsKeyword` all true but an empty transcript does not
dispatch — the guard at VoiceContext line 111 also requires
`result.transcript` to be truthy (non-empty) — and the loop keeps
listening instead of terminating. -/
theorem c3_counterexample :
    (voiceLoop [.transcribed ⟨true, "", true, true⟩]).dispatched = 0 ∧
    (voiceLoop [.transcribed ⟨true, "", true, true⟩]).stoppedByKeyword = false ∧
    (voiceLoop [.transcribed ⟨true, "", true, true⟩]).listeningAtEnd = true := by
  refine ⟨?_, ?_, ?_⟩ <;> simp [voiceLoop]

/-- C3 (amended): if a transcription result has `success`, `hasVoice` and
`containsKeyword` true and a non-empty transcript, the loop dispatches the
alert exactly once, stops listening, and consumes no further capture
iterations until `startListening` is invoked again. -/
theorem c3_keyword_single_shot (tr : TranscriptionResult) (rest : List LoopEvent)
    (hs : tr.success = true) (hv : tr.hasVoice = true) (ht : tr.transcript ≠ "")
    (hk : tr.containsKeyword = true) :
    voiceLoop (.transcribed tr :: rest) =
      { dispatched := 1, stoppedByKeyword := true, listeningAtEnd := false
        remaining := rest, delays := [] } := by
  simp [voiceLoop, hs, hv, ht, hk]

/-- Witness for `c3_keyword_single_shot` on the result
`{success: true, transcript: "astra", containsKeyword: true, hasVoice: true}`
with one further pending iteration. -/
theorem c3_keyword_single_shot_witness :
    voiceLoop [.transcribed ⟨true, "astra", true, true⟩, .recordFail] =
      { dispatched := 1, stoppedByKeyword := true, listeningAtEnd := false
        remaining := [.recordFail], delays := [] } :=
  c3_keyword_single_shot ⟨true, "astra", true, true⟩ [.recordFail] rfl rfl (by decide) rfl

/-- C4 as stated is false: after a failed transcription
(`result.success = false`, which is how `transcribeAudio` surfaces
timeouts, network errors and non-2xx responses) the loop performs the
ordinary 300 ms inter-chunk delay, not a 2000 ms backoff. -/
theorem c4_counterexample :
    (voiceLoop [.transcribed ⟨false, "", false, false⟩]).delays = [300] ∧
    (voiceLoop [.transcribed ⟨false, "", false, false⟩]).delays ≠ [2000] := by
  refine ⟨?_, ?_⟩ <;> simp [voiceLoop]

/-- C4 (amended): a failed transcription logs and continues after the
normal 300 ms inter-chunk delay (the 2000 ms backoff belongs to the
exception handler of the loop body, which `transcribeAudio` never
triggers); and any number of consecutive transcription failures leaves the
loop listening with nothing dispatched — in particular three consecutive
oracle timeouts. -/
theorem c4_failure_continues_amended :
    (∀ (tr : TranscriptionResult) (rest : List LoopEvent), tr.success = false →
      voiceLoop (.transcribed tr :: rest) =
        { voiceLoop rest with delays := 300 :: (voiceLoop rest).delays }) ∧
    (∀ rest : List LoopEvent,
      voiceLoop (.loopError :: rest) =
        { voiceLoop rest with delays := 2000 :: (voiceLoop rest).delays }) ∧
    (∀ n : ℕ,
      voiceLoop (List.replicate n (.transcribed ⟨false, "", false, false⟩)) =
        { dispatched := 0, stoppedByKeyword := false, listeningAtEnd := true
          remaining := [], delays := List.replicate n 300 }) := by
  refine ⟨?_, ?_, ?_⟩
  · intro tr rest hs
    simp [voiceLoop, hs]
  · intro rest
    simp [voiceLoop]
  · intro n
    induction n with
    | zero => simp [voiceLoop]
    | succ m ih => simp [List.replicate_succ, voiceLoop, ih]

/-- Witness for `c4_failure_continues_amended` on a single failed
transcription. -/
theorem c4_failure_continues_amended_witness :
    voiceLoop [.transcribed ⟨false, "", false, false⟩] =
      { dispatched := 0, stoppedByKeyword := false, listeningAtEnd := true
        remaining := [], delays := [300] } := by
  rw [c4_failure_continues_amended.1 ⟨false, "", false, false⟩ [] rfl]
  simp [voiceLoop]

/-- C10: `transcribeAudio` is total over its failure modes — whenever the
auth token is missing or the request fails (timeout, network error,
non-2xx, or any other error), it returns
`{success: false, transcript: "", containsKeyword: false, hasVoice: false}`
rather than propagating an exception (the Lean embedding is a total
function; every `throw` inside the source's `try` is caught by its own
`catch`, which returns this sentinel). -/
theorem c10_transcribe_total (token : Option String)
    (call : Except TranscribeErr TranscribeResponse)
    (h : token = none ∨ ∃ e, call = .error e) :
    transcribeAudio token call = transcribeFailure := by
  rcases h with h | ⟨e, he⟩
  · subst h; rfl
  · subst he; cases token <;> rfl

/-- Witness for `c10_transcribe_total` on a missing token and on a timeout
with a token present. -/
theorem c10_transcribe_total_witness :
    transcribeAudio none (.ok ⟨true, some "astra", some true, some true⟩) =
        transcribeFailure ∧
    transcribeAudio (some "tok") (.error .timeout) = transcribeFailure :=
  ⟨c10_transcribe_total none _ (Or.inl rfl),
   c10_transcribe_total (some "tok") _ (Or.inr ⟨.timeout, rfl⟩)⟩

/-- Helper for C1: across any interleaving, the dispatch layer persists
exactly one alert per trigger that arrived with a location available. -/
theorem coordRun_persisted_length (evs : List CoordEvent) :
    ∀ st : CoordState,
      (coordRun st evs).persisted.length = st.persisted.length + acceptedTriggers evs := by
  induction evs with
  | nil => intro st; simp [coordRun, acceptedTriggers]
  | cons e rest ih =>
      intro st
      cases e with
      | shakeTrigger loc now =>
          cases loc with
          | none => simp [coordRun, coordStep, handleShakeDetected, acceptedTriggers, ih]
          | some l =>
              simp [coordRun, coordStep, handleShakeDetected, acceptedTriggers, ih]
              omega
      | voiceTrigger loc now =>
          cases loc with
          | none => simp [coordRun, coordStep, triggerEmergencyAlert, acceptedTriggers, ih]
          | some l =>
              simp [coordRun, coordStep, triggerEmergencyAlert, acceptedTriggers, ih]
              omega
      | dispatchComplete => simp [coordRun, coordStep, acceptedTriggers, ih]

/-- C1 as stated is false: neither context consults any in-flight flag, so
a second trigger arriving while a dispatch is still in flight is not
dropped — after two shake triggers with a location available and no
intervening completion, two dispatches are in flight and two alerts have
been persisted. -/
theorem c1_counterexample : ¬ claimSingleFlightDispatch := by
  intro h
  have h2 := h [] [.shakeTrigger (some ⟨12, 77, none⟩) 1700000000000,
                   .shakeTrigger (some ⟨12, 77, none⟩) 1700000001100]
  simp [coordRun, coordStep, coordInit, handleShakeDetected] at h2

/-- C1 (amended): the source has no dispatch guard.  Every trigger that
arrives with a location available starts its own dispatch and persists
exactly one alert regardless of how many dispatches are already in flight;
across any interleaving the number of persisted alerts equals the number
of triggers that arrived with a location.  (Deduplication comes only from
the shake detector's 1000 ms debounce and the voice loop's stop after a
keyword match.) -/
theorem c1_no_dispatch_guard_amended :
    (∀ (st : CoordState) (l : Location) (now : ℕ),
      (coordStep st (.shakeTrigger (some l) now)).inFlight = st.inFlight + 1 ∧
      (coordStep st (.shakeTrigger (some l) now)).persisted =
        shakeAlert l now :: st.persisted) ∧
    (∀ (st : CoordState) (l : Location) (now : ℕ),
      (coordStep st (.voiceTrigger (some l) now)).inFlight = st.inFlight + 1 ∧
      (coordStep st (.voiceTrigger (some l) now)).persisted =
        voiceAlert l now :: st.persisted) ∧
    (∀ (g : List Guardian) (evs : List CoordEvent),
      (coordRun (coordInit g) evs).persisted.length = acceptedTriggers evs) := by
  refine ⟨?_, ?_, ?_⟩
  · intro st l now
    exact ⟨rfl, rfl⟩
  · intro st l now
    exact ⟨rfl, rfl⟩
  · intro g evs
    simpa [coordInit] using coordRun_persisted_length evs (coordInit g)

/-- C5: a trigger arriving with no location available reports
`locationUnavailable` and persists nothing (both in the shake path and the
voice path), the dispatch-layer state is left unchanged, and a subsequent
trigger with a location dispatches normally — missing location never
permanently blocks future triggers. -/
theorem c5_location_unavailable :
    (∀ (g : List Guardian) (alerts : List Alert) (now : ℕ),
      handleShakeDetected none g alerts now = (alerts, .locationUnavailable)) ∧
    (∀ (g : List Guardian) (alerts : List Alert) (now : ℕ),
      triggerEmergencyAlert none g alerts now = (alerts, .locationUnavailable)) ∧
    (∀ (st : CoordState) (now : ℕ), coordStep st (.shakeTrigger none now) = st) ∧
    (∀ (st : CoordState) (now : ℕ), coordStep st (.voiceTrigger none now) = st) ∧
    (∀ (st : CoordState) (l : Location) (now now2 : ℕ),
      (coordRun st [.shakeTrigger none now, .shakeTrigger (some l) now2]).persisted =
        shakeAlert l now2 :: st.persisted ∧
      (coordRun st [.shakeTrigger none now, .shakeTrigger (some l) now2]).inFlight =
        st.inFlight + 1) := by
  exact ⟨fun g alerts now => rfl, fun g alerts now => rfl,
         fun st now => rfl, fun st now => rfl,
         fun st l now now2 => ⟨rfl, rfl⟩⟩

/-- C9 as stated is false: the shake path persists its alert with
`triggerType: 'manual'` — the very string the manual SOS button stores and
the alerts screen labels "Manual SOS" — so the persisted record does not
carry a Shake kind. -/
theorem c9_counterexample :
    ((handleShakeDetected (some ⟨12, 77, none⟩) [] [] 1700000000000).1.map
        (fun a => a.triggerType)) = ["manual"] ∧
    manualSosTriggerType = "manual" ∧
    getTriggerTypeText "manual" = "Manual SOS" ∧
    "manual" ≠ "shake" := by
  refine ⟨rfl, rfl, by simp [getTriggerTypeText], by simp⟩

/-- C9 (amended): each accepted trigger persists exactly one alert; the
voice path records its detection source as `triggerType: 'voice'`, while
the shake path records `triggerType: 'manual'` — the detection source
survives only in the free-text message field. -/
theorem c9_trigger_kind_amended :
    (∀ (l : Location) (g : List Guardian) (alerts : List Alert) (now : ℕ),
      (handleShakeDetected (some l) g alerts now).1 = shakeAlert l now :: alerts ∧
      (shakeAlert l now).triggerType = "manual" ∧
      (shakeAlert l now).message = "Emergency alert triggered by shake detection") ∧
    (∀ (l : Location) (g : List Guardian) (alerts : List Alert) (now : ℕ),
      (triggerEmergencyAlert (some l) g alerts now).1 = voiceAlert l now :: alerts ∧
      (voiceAlert l now).triggerType = "voice") := by
  exact ⟨fun l g alerts now => ⟨rfl, rfl, rfl⟩, fun l g alerts now => ⟨rfl, rfl⟩⟩

/-- C6: the shake side conforms to the claim — backgrounding an active
enabled detector stops it, foregrounding restarts it, a disabled (idle)
detector stays idle across the round trip, and restarting an already
active detector is a no-op — but the voice side cannot ever resume: the
background transition runs `stopListening`, which clears
`listeningLoopRef`, and the foreground handler's resume condition requires
that very ref (and `startListening` itself no-ops when the ref is set), so
the `'active'` branch never changes the state.  In particular an
actively-listening voice detector is still stopped after
background→foreground, contradicting the code's own
"Resume if was listening before" comment. -/
theorem c6_lifecycle_voice_resume_bug :
    ((shakeHandleAppStateChange
        (shakeHandleAppStateChange
          ⟨true, .medium, ShakeService.init.start .medium⟩ .background)
        .active).svc.isActive = true) ∧
    ((shakeHandleAppStateChange
        (shakeHandleAppStateChange ⟨false, .medium, ShakeService.init⟩ .background)
        .active).svc.isActive = false) ∧
    (startShakeDetection ⟨true, .medium, ShakeService.init.start .medium⟩ =
      ⟨true, .medium, ShakeService.init.start .medium⟩) ∧
    (∀ st : VoiceCtx, voiceHandleAppStateChange st .active = st) ∧
    ((voiceHandleAppStateChange
        (voiceHandleAppStateChange ⟨true, true, true⟩ .background) .active).isListening
      = false) := by
  refine ⟨rfl, rfl, rfl, ?_, rfl⟩
  intro st
  simp only [voiceHandleAppStateChange, startListeningEntry]
  split_ifs with h1 h2
  · rfl
  · exact absurd h1.2 h2
  · rfl

/-- Single step of the capture-lock invariant for C8: any event other than
`cleanup()` preserves "at most one capture outstanding, and none when the
lock is free". -/
theorem recInv_step (st : RecState) (e : RecEvent) (he : e ≠ .cleanupRuns)
    (h1 : outstandingCaptures st ≤ 1)
    (h2 : st.recordingLock = false → outstandingCaptures st = 0) :
    outstandingCaptures (recStep st e) ≤ 1 ∧
      ((recStep st e).recordingLock = false → outstandingCaptures (recStep st e) = 0) := by
  cases e with
  | cleanupRuns => exact absurd rfl he
  | call1 =>
      cases hpc : st.pc1 <;> by_cases hl : st.recordingLock <;>
        simp_all [recStep, recCallSeg, outstandingCaptures]
  | call2 =>
      cases hpc : st.pc2 <;> by_cases hl : st.recordingLock <;>
        simp_all [recStep, recCallSeg, outstandingCaptures]
  | timerFires1 =>
      cases hpc : st.pc1 <;> cases hrec : st.recording <;>
        simp_all [recStep, recTimerSeg, outstandingCaptures]
  | timerFires2 =>
      cases hpc : st.pc2 <;> cases hrec : st.recording <;>
        simp_all [recStep, recTimerSeg, outstandingCaptures]

/-- The invariant carried along a cleanup-free interleaving (C8). -/
theorem recRun_single_flight (evs : List RecEvent) :
    ∀ st : RecState, RecEvent.cleanupRuns ∉ evs →
      outstandingCaptures st ≤ 1 →
      (st.recordingLock = false → outstandingCaptures st = 0) →
      outstandingCaptures (recRun st evs) ≤ 1 := by
  induction evs with
  | nil => intro st _ h1 _; exact h1
  | cons e rest ih =>
      intro st hne h1 h2
      have he : e ≠ .cleanupRuns := fun h => hne (h ▸ List.mem_cons_self _ _)
      have hrest : RecEvent.cleanupRuns ∉ rest := fun h => hne (List.mem_cons_of_mem _ h)
      have hstep := recInv_step st e he h1 h2
      exact ih (recStep st e) hrest hstep.1 hstep.2

/-- C8 as stated is false: the single-flight capture invariant does not
survive every interleaving of `stop()` calls, because `cleanup()` clears
`recordingLock` unconditionally.  In the interleaving "invocation 1 takes
the lock and starts recording; cleanup runs; invocation 2 takes the
now-free lock and starts recording", two captures are outstanding at
once. -/
theorem c8_counterexample : ¬ claimSingleFlightCapture := by
  intro h
  exact absurd (h [.call1, .cleanupRuns, .call2]) (by decide)

/-- C8 (amended): a `recordChunk` invocation that finds `recordingLock`
set returns null without touching the service state; a `startListening`
call while already listening is a no-op; and in every interleaving that
contains no `cleanup()` the single-flight invariant holds — at most one
capture is outstanding at any time.  `cleanup()` breaks it by
unconditionally releasing the lock mid-capture. -/
theorem c8_capture_single_flight_amended :
    (∀ st : RecState, st.recordingLock = true → st.pc1 = .notCalled →
      recStep st .call1 = { st with pc1 := .returned none }) ∧
    (∀ st : RecState, st.recordingLock = true → st.pc2 = .notCalled →
      recStep st .call2 = { st with pc2 := .returned none }) ∧
    (∀ st : VoiceCtx, st.loopRef = true → startListeningEntry st = st) ∧
    (∀ evs : List RecEvent, RecEvent.cleanupRuns ∉ evs →
      outstandingCaptures (recRun recInit evs) ≤ 1) := by
  refine ⟨?_, ?_, ?_, ?_⟩
  · intro st hl hpc
    simp [recStep, recCallSeg, hpc, hl]
  · intro st hl hpc
    simp [recStep, recCallSeg, hpc, hl]
  · intro st hl
    simp [startListeningEntry, hl]
  · intro evs hne
    exact recRun_single_flight evs recInit hne (by decide) (by decide)

/-- Witness for `c8_capture_single_flight_amended`: a locked service
rejects a `recordChunk` call; `startListening` while listening is a no-op;
the interleaving call1-timer1-call2-timer2 (no cleanup) keeps at most one
capture outstanding. -/
theorem c8_capture_single_flight_amended_witness :
    (recStep { recordingLock := true, recording := some 0, isRecording := true
               pc1 := .notCalled, pc2 := .awaitingTimer, nextRec := 1 } .call1 =
      { recordingLock := true, recording := some 0, isRecording := true
        pc1 := .returned none, pc2 := .awaitingTimer, nextRec := 1 }) ∧
    (startListeningEntry ⟨true, true, true⟩ = ⟨true, true, true⟩) ∧
    (outstandingCaptures
        (recRun recInit [.call1, .timerFires1, .call2, .timerFires2]) ≤ 1) :=
  ⟨c8_capture_single_flight_amended.1 _ rfl rfl,
   c8_capture_single_flight_amended.2.2.1 ⟨true, true, true⟩ rfl,
   c8_capture_single_flight_amended.2.2.2 [.call1, .timerFires1, .call2, .timerFires2]
     (by decide)⟩

end SafetyDetection
